import Mathlib

/-!
Verification development for the fps-limiter-pro browser extension.

The definitions below are a shallow embedding of the repository's source:

* `getConfigForUrl` — the per-tab configuration algorithm of
  `src/src/background.ts` (lines 248–395);
* `getConfigForUrlJs` — the legacy variant of `src/src/background.js`
  (lines 15–30) and `src/unnamed/part_008` (lines 18–33);
* `throttledRAF` / `analyzeFrame120` — the baseline content-script frame
  limiter of `src/unnamed/part_010` (shared shape with `part_011`, `part_006`);
* `smartRAF` / `analyzeFrameAdv` — the advanced limiter of `src/src/content.ts`;
* `frameIntervalAdvanced` / `frameIntervalBaseline` — the interval formulas of
  the two `update` implementations;
* `jankPercentage` — the popup's jank readout (`src/src/popup/popup.ts` 441);
* `calculateConfidence` / `getHeuristicRecommendation` — the AI engine's
  confidence formulas (`src/unnamed/part_011`);
* `runRelease` — the release script (`src/support/release.js`);
* `handlePageIsHeavy` — the PAGE_IS_HEAVY storage handler
  (`src/unnamed/part_008` lines 63–74).

JavaScript numbers are modelled as exact rationals (`ℚ`), URL parsing as an
`Option`-valued hostname (`none` when `new URL` throws), and ambient service
results (AI engine, game detector, power manager, performance monitor) as
explicit parameters, so that each function is pure in its inputs exactly as the
specification's §4.8 describes.
-/

/-- JavaScript `hay.includes(needle)` (substring containment). -/
def strIncludes (hay needle : String) : Bool :=
  decide (needle.toList <:+: hay.toList)

/-- A URL string, represented by its parse result: `hostname = some h` when
`new URL(url).hostname` evaluates to `h`, and `none` when `new URL` throws. -/
structure Url where
  hostname : Option String
deriving DecidableEq, Repr

/-- The `priority` field of `SiteConfig` (src/src/types.ts). -/
inductive ConfigPriority
  | performance
  | battery
  | balanced
deriving DecidableEq, Repr

/-- `SiteConfig` from src/src/types.ts; `adaptive` and `priority` are optional
fields, absent (`none`) when a config literal omits them. -/
structure SiteConfig where
  enabled : Bool
  value : Int
  adaptive : Option Bool := none
  priority : Option ConfigPriority := none
deriving DecidableEq, Repr

/-- Optional matching conditions of an `AutoModeConfig`; `timeRange` holds the
already-parsed `HHMM` integers of the `start`/`end` strings. -/
structure AutoConditions where
  batteryLevel : Option ℚ := none
  cpuUsage : Option ℚ := none
  timeRange : Option (Nat × Nat) := none
  networkType : Option (List String) := none

/-- An auto-mode rule: `domain` is matched by substring containment against the
page hostname. -/
structure AutoModeConfig where
  domain : String
  fps : Int
  conditions : Option AutoConditions := none

/-- The settings bundle inside a profile. -/
structure ProfileSettings where
  globalConfig : Option SiteConfig := none
  autoModeConfigs : List AutoModeConfig := []

/-- A user profile (only the fields `getConfigForUrl` reads). -/
structure Profile where
  settings : ProfileSettings

/-- The slice of the background `SettingsCache` consulted by
`getConfigForUrl` in src/src/background.ts. -/
structure SettingsCacheB where
  globalDisabled : Bool := false
  autoModeMasterEnable : Bool := true
  aiOptimization : Bool := true
  gameDetection : Bool := true
  gamingMode : Bool := false
  batteryOptimization : Bool := true
  thermalProtection : Bool := true

/-- Result of `aiEngine.getOptimalFps` (when non-null). -/
structure AISuggestion where
  fps : Int
  confidence : ℚ

/-- Result of `gameDetector.analyzeUrl`. -/
structure GameResult where
  isGame : Bool
  confidence : ℚ
  recommendedFps : Int

/-- Ambient inputs of one `getConfigForUrl` evaluation: the service results it
consults and the environment the auto-mode condition checks read. Passing them
as data makes the algorithm the pure function of §4.8. -/
structure BgEnv where
  aiReady : Bool
  aiSuggestion : Option AISuggestion
  gameResult : GameResult
  powerOptimize : SiteConfig → SiteConfig
  perfAdapt : SiteConfig → SiteConfig
  hasPerformanceData : Bool
  batteryLevel : Option ℚ
  cpuUsage : Option ℚ
  currentTime : Nat
  networkType : Option String

/-- The condition checks inside the auto-mode rule search
(src/src/background.ts lines 321–356). -/
def condHolds (env : BgEnv) (c : AutoConditions) : Bool :=
  (match c.batteryLevel, env.batteryLevel with
   | some bl, some lvl => !(decide (lvl < bl))
   | _, _ => true) &&
  (match c.cpuUsage, env.cpuUsage with
   | some cu, some u => !(decide (u > cu))
   | _, _ => true) &&
  (match c.timeRange with
   | some tr => !(decide (env.currentTime < tr.1 || env.currentTime > tr.2))
   | none => true) &&
  (match c.networkType, env.networkType with
   | some types, some t => types.contains t
   | _, _ => true)

/-- The predicate of the `find` over `autoModeConfigs`
(src/src/background.ts lines 317–359). -/
def autoMatches (env : BgEnv) (host : String) (c : AutoModeConfig) : Bool :=
  strIncludes host c.domain &&
  (match c.conditions with
   | none => true
   | some cond => condHolds env cond)

/-- `fallbackConfig` of src/src/background.ts lines 258–263. -/
def fallbackConfig : SiteConfig :=
  { enabled := true, value := 60, adaptive := some true,
    priority := some .balanced }

/-- `getConfigForUrl` of src/src/background.ts (lines 248–395). The only
exception point inside the `try` is `new URL(url)`, which occurs before any
mutation of `baseConfig`, so the `catch` returns the profile's base config. -/
def getConfigForUrl (env : BgEnv) (url : Url)
    (tabIsActive tabIsAudible : Bool)
    (profile : Option Profile) (s : SettingsCacheB) : SiteConfig :=
  match profile with
  | none => { fallbackConfig with enabled := !s.globalDisabled }
  | some p =>
    if s.globalDisabled then { fallbackConfig with enabled := false }
    else
      let base0 := p.settings.globalConfig.getD fallbackConfig
      match url.hostname with
      | none => base0
      | some host =>
        let base1 :=
          if s.aiOptimization && env.aiReady then
            match env.aiSuggestion with
            | some a =>
              if (7 : ℚ)/10 < a.confidence then { base0 with value := a.fps }
              else base0
            | none => base0
          else base0
        let base2 :=
          if s.gameDetection || s.gamingMode then
            if env.gameResult.isGame && decide ((7 : ℚ)/10 < env.gameResult.confidence) then
              { base1 with value := env.gameResult.recommendedFps,
                           priority := some .performance, adaptive := some true }
            else base1
          else base1
        if s.autoModeMasterEnable && (!tabIsActive && tabIsAudible) then
          { enabled := true, value := 5, priority := some .battery,
            adaptive := some false }
        else
          let base3 :=
            if s.autoModeMasterEnable then
              match p.settings.autoModeConfigs.find? (fun c => autoMatches env host c) with
              | some ac =>
                { enabled := true, value := ac.fps, priority := some .balanced,
                  adaptive := some s.aiOptimization }
              | none => base2
            else base2
          let base4 :=
            if s.batteryOptimization || s.thermalProtection then
              env.powerOptimize base3
            else base3
          if base4.adaptive.getD false && env.hasPerformanceData then
            env.perfAdapt base4
          else base4

/-- A legacy `SiteConfig` literal (`{enabled, value}`) as produced by
src/src/background.js. -/
structure SiteConfigL where
  enabled : Bool
  value : Int
deriving DecidableEq, Repr

/-- A legacy auto-mode rule (`{domain, fps}`). -/
structure AutoRule where
  domain : String
  fps : Int

/-- The settings cache of src/src/background.js `loadAndCacheSettings`;
`siteConfigs` maps a hostname to a stored per-host override when present. -/
structure LegacyCache where
  globalDisabled : Bool
  autoModeMasterEnable : Bool
  globalConfig : Option SiteConfigL
  autoModeConfigs : List AutoRule
  siteConfigs : String → Option SiteConfigL

/-- `getConfigForUrl` of src/src/background.js lines 15–30 (identical logic in
src/unnamed/part_008 lines 18–33): note that it never reads
`globalDisabled`. -/
def getConfigForUrlJs (s : LegacyCache) (url : Url)
    (tabIsActive tabIsAudible : Bool) : SiteConfigL :=
  match s.globalConfig with
  | none => { enabled := false, value := 60 }
  | some g =>
    match url.hostname with
    | none => g
    | some host =>
      if s.autoModeMasterEnable && (!tabIsActive && tabIsAudible) then
        { enabled := true, value := 5 }
      else
        let am :=
          if s.autoModeMasterEnable then
            s.autoModeConfigs.find? (fun c => strIncludes host c.domain)
          else none
        match am with
        | some c => { enabled := true, value := c.fps }
        | none =>
          match s.siteConfigs host with
          | some sc => sc
          | none => g

/-- Environment fixture used by witness theorems. -/
def bgEnvW : BgEnv :=
  { aiReady := true,
    aiSuggestion := some { fps := 144, confidence := 9/10 },
    gameResult := { isGame := true, confidence := 1, recommendedFps := 144 },
    powerOptimize := fun c => { c with value := c.value - 1 },
    perfAdapt := fun c => { c with value := c.value - 2 },
    hasPerformanceData := true,
    batteryLevel := some 80,
    cpuUsage := some 10,
    currentTime := 1200,
    networkType := some "4g" }

/-- Profile fixture used by witness theorems (the test fixture of
src/unnamed/part_005). -/
def profileW : Profile :=
  { settings :=
    { globalConfig := some { enabled := true, value := 60 },
      autoModeConfigs := [{ domain := "game.com", fps := 144 }] } }

/-- C1: with auto-mode on, the extension not globally disabled and an active
profile present, `getConfigForUrl` on a non-active audible tab with a parseable
URL returns exactly `{enabled := true, value := 5, priority := battery,
adaptive := false}`, regardless of the AI suggestion, the game-detection
result, the profile's auto-mode rules, or the power/performance passes. -/
theorem audible_background_tab_forced_to_five
    (env : BgEnv) (url : Url) (h : String) (p : Profile) (s : SettingsCacheB)
    (hh : url.hostname = some h)
    (hauto : s.autoModeMasterEnable = true)
    (hdis : s.globalDisabled = false) :
    getConfigForUrl env url false true (some p) s =
      { enabled := true, value := 5, priority := some .battery,
        adaptive := some false } := by
  simp [getConfigForUrl, hh, hauto, hdis]

/-- Witness for C1 at the fixture inputs. -/
theorem audible_background_tab_forced_to_five_witness :
    getConfigForUrl bgEnvW ⟨some "youtube.com"⟩ false true (some profileW)
        { } =
      { enabled := true, value := 5, priority := some .battery,
        adaptive := some false } :=
  audible_background_tab_forced_to_five bgEnvW ⟨some "youtube.com"⟩
    "youtube.com" profileW { } rfl rfl rfl

/-- C2 (amended): in the TypeScript background variant, `globalDisabled = true`
forces `enabled = false` whatever the other inputs are. -/
theorem globalDisabled_forces_disabled_ts
    (env : BgEnv) (url : Url) (a b : Bool)
    (profile : Option Profile) (s : SettingsCacheB)
    (hdis : s.globalDisabled = true) :
    (getConfigForUrl env url a b profile s).enabled = false := by
  cases profile <;> simp [getConfigForUrl, hdis]

/-- Witness for the amended C2 at concrete inputs. -/
theorem globalDisabled_forces_disabled_ts_witness :
    (getConfigForUrl bgEnvW ⟨some "example.com"⟩ true false (some profileW)
        { globalDisabled := true }).enabled = false :=
  globalDisabled_forces_disabled_ts bgEnvW ⟨some "example.com"⟩ true false
    (some profileW) { globalDisabled := true } rfl

/-- C2 counterexample: the legacy `background.js` variant ignores
`globalDisabled`. With `globalDisabled = true` cached, a non-active audible
tab still gets `{enabled := true, value := 5}`, so the claim fails for that
variant of the background configuration function. -/
theorem globalDisabled_ignored_in_js_variant :
    (getConfigForUrlJs
        { globalDisabled := true, autoModeMasterEnable := true,
          globalConfig := some { enabled := true, value := 60 },
          autoModeConfigs := [], siteConfigs := fun _ => none }
        ⟨some "example.com"⟩ false true).enabled = true := rfl

/-- Limiter state of the baseline content-script variant
(src/unnamed/part_010). `lastFrameTime = none` models the initial
`-Infinity`. -/
structure P010State where
  lastFrameTime : Option ℚ := none
  frameInterval : ℚ := 1000/60
  frameDurations : List ℚ := []
  durationSum : ℚ := 0
  isPageFlagged : Bool := false
  isIframe : Bool := false
deriving Repr

/-- What a `throttledRAF` call schedules: immediate execution through the
captured original `requestAnimationFrame`, or a `window.setTimeout` deferred by
`delay` milliseconds. -/
inductive RAFAction
  | immediate
  | deferred (delay : ℚ)
deriving DecidableEq, Repr

/-- `throttledRAF` of src/unnamed/part_010 lines 63–77 (same pacing step in
part_011 line 49 and part_006 line 12): the scheduling decision and the state
it leaves at call time. With `lastFrameTime = -Infinity`, `d = -Infinity ≤ 0`,
so the first call is immediate. -/
def throttledRAF (st : P010State) (now : ℚ) : RAFAction × P010State :=
  match st.lastFrameTime with
  | none => (.immediate, { st with lastFrameTime := some now })
  | some last =>
    let e := now - last
    let d := st.frameInterval - e
    if d ≤ 0 then (.immediate, { st with lastFrameTime := some now })
    else (.deferred d, st)

/-- `analyzeFrame` of src/unnamed/part_010 lines 80–93 (120-sample window,
8 ms threshold). The returned `Bool` is whether the PAGE_IS_HEAVY message was
sent. This is also the whole state effect of the `exec` body that both the
immediate and the deferred path of part_010's `throttledRAF` run. -/
def analyzeFrame120 (st : P010State) (duration : ℚ) : P010State × Bool :=
  if st.isPageFlagged || st.isIframe then (st, false)
  else
    let ds0 := st.frameDurations ++ [duration]
    let sum0 := st.durationSum + duration
    let ds := if ds0.length > 120 then ds0.tail else ds0
    let sum := if ds0.length > 120 then sum0 - ds0.headI else sum0
    if ds.length < 120 then
      ({ st with frameDurations := ds, durationSum := sum }, false)
    else
      let avg := sum / ds.length
      if 8 < avg then
        ({ st with frameDurations := ds, durationSum := sum,
                   isPageFlagged := true }, true)
      else
        ({ st with frameDurations := ds, durationSum := sum }, false)

/-- Folding `analyzeFrame120` over a sequence of recorded callback durations,
counting emitted PAGE_IS_HEAVY signals. -/
def runAnalyze120 (st : P010State) : List ℚ → P010State × Nat
  | [] => (st, 0)
  | d :: rest =>
    let r := analyzeFrame120 st d
    let r2 := runAnalyze120 r.1 rest
    (r2.1, (if r.2 then 1 else 0) + r2.2)

/-- State of the `AdaptiveScheduler` (src/src/content.ts lines 576–643). -/
structure SchedulerState where
  isVisible : Bool := true
  gameMode : Bool := false
  contentChanged : Bool := false
  longTaskDetected : Bool := false
deriving DecidableEq, Repr

/-- `AdaptiveScheduler.shouldScheduleFrame` (src/src/content.ts
lines 601–615). -/
def shouldScheduleFrame (s : SchedulerState) (elapsed frameInterval : ℚ) : Bool :=
  if s.gameMode then true
  else if !s.isVisible then decide (frameInterval * 3 < elapsed)
  else if s.contentChanged then decide (frameInterval * (8/10) < elapsed)
  else if s.longTaskDetected then decide (frameInterval * (3/2) < elapsed)
  else true

/-- What one intercepted call of the advanced limiter does with its callback. -/
inductive SmartRAFAction
  | skipFrame
  | viaOriginalRAF
  | viaTimeout (delay : ℚ)
deriving DecidableEq, Repr

/-- The wrapper returned by `createSmartRAF` (src/src/content.ts lines
299–336) together with `AdaptiveScheduler.scheduleFrame` (lines 617–626):
the scheduler gate runs first; an accepted overdue call goes through the
original RAF; an accepted future call goes through `setTimeout(targetDelay)`
unless game mode is on and the delay is under 4 ms, in which case the native
RAF is preferred. `lastFrameTime = none` models the initial `-Infinity`
(elapsed is then `+Infinity`: every gate comparison holds and
`targetDelay = -Infinity ≤ 0`). -/
def smartRAF (sched : SchedulerState) (lastFrameTime : Option ℚ)
    (frameInterval now : ℚ) : SmartRAFAction :=
  match lastFrameTime with
  | none => .viaOriginalRAF
  | some last =>
    let elapsed := now - last
    if !(shouldScheduleFrame sched elapsed frameInterval) then .skipFrame
    else
      let targetDelay := frameInterval - elapsed
      if targetDelay ≤ 0 then .viaOriginalRAF
      else if sched.gameMode && decide (targetDelay < 4) then .viaOriginalRAF
      else .viaTimeout targetDelay

/-- Frame-analysis state of the advanced limiter (src/src/content.ts):
240-sample window, plus the iframe/game-mode gate. -/
structure AdvAnalysis where
  frameDurations : List ℚ := []
  durationSum : ℚ := 0
  isPageFlagged : Bool := false
  isIframe : Bool := false
  gameMode : Bool := false
deriving Repr

/-- `analyzeFrame` (src/src/content.ts lines 355–380) restricted to the
average-duration bookkeeping, composed with the heavy-page branch of
`detectPerformanceIssues` (lines 432–439): after at least 10 samples the
running average is compared against the 8 ms threshold. Returns whether
PAGE_IS_HEAVY was sent. -/
def analyzeFrameAdv (st : AdvAnalysis) (duration : ℚ) : AdvAnalysis × Bool :=
  if st.isIframe && !st.gameMode then (st, false)
  else
    let ds0 := st.frameDurations ++ [duration]
    let sum0 := st.durationSum + duration
    let ds := if ds0.length > 240 then ds0.tail else ds0
    let sum := if ds0.length > 240 then sum0 - ds0.headI else sum0
    if ds.length < 10 then
      ({ st with frameDurations := ds, durationSum := sum }, false)
    else
      let avg := sum / ds.length
      if !st.isPageFlagged && decide (8 < avg) then
        ({ st with frameDurations := ds, durationSum := sum,
                   isPageFlagged := true }, true)
      else
        ({ st with frameDurations := ds, durationSum := sum }, false)

/-- Folding `analyzeFrameAdv` over a duration sequence, counting emissions. -/
def runAnalyzeAdv (st : AdvAnalysis) : List ℚ → AdvAnalysis × Nat
  | [] => (st, 0)
  | d :: rest =>
    let r := analyzeFrameAdv st d
    let r2 := runAnalyzeAdv r.1 rest
    (r2.1, (if r.2 then 1 else 0) + r2.2)

/-- C3 (amended): in the baseline limiter, with a finite `lastFrameTime`,
`delay = frameInterval - (now - lastFrameTime)`; `delay ≤ 0` executes through
the original RAF and sets `lastFrameTime := now`, while `delay > 0` defers by
exactly `delay` milliseconds via a timer and changes no state at call time. -/
theorem throttledRAF_pacing (st : P010State) (now last : ℚ)
    (hl : st.lastFrameTime = some last) :
    (st.frameInterval - (now - last) ≤ 0 →
      throttledRAF st now = (.immediate, { st with lastFrameTime := some now })) ∧
    (0 < st.frameInterval - (now - last) →
      throttledRAF st now = (.deferred (st.frameInterval - (now - last)), st)) := by
  constructor
  · intro hd
    simp [throttledRAF, hl, hd]
  · intro hd
    simp [throttledRAF, hl, not_le.mpr hd]

/-- Witness for C3: a 30 fps target (interval 1000/30 ms); a call 40 ms after
the last frame runs immediately, a call 10 ms after is deferred by
1000/30 - 10 = 70/3 ≈ 23.33 ms. -/
theorem throttledRAF_pacing_witness :
    throttledRAF { lastFrameTime := some 0, frameInterval := 1000/30 } 40 =
      (.immediate, { lastFrameTime := some 40, frameInterval := 1000/30 }) ∧
    throttledRAF { lastFrameTime := some 0, frameInterval := 1000/30 } 10 =
      (.deferred ((1000 : ℚ)/30 - (10 - 0)),
        { lastFrameTime := some 0, frameInterval := 1000/30 }) ∧
    (1000 : ℚ)/30 - (10 - 0) = 70/3 := by
  refine ⟨(throttledRAF_pacing _ 40 0 rfl).1 (by norm_num),
          (throttledRAF_pacing _ 10 0 rfl).2 (by norm_num), by norm_num⟩

/-- C3 counterexample: in the advanced limiter, a call with `delay ≤ 0` is not
always executed — with the page invisible to the intersection observer
(`isVisible = false`, no game mode) and `elapsed = 40` against a 30 fps
interval, the scheduler gate (`elapsed > 3 × interval` fails) drops the frame
entirely even though `delay = 1000/30 - 40 ≤ 0`. -/
theorem smartRAF_drops_overdue_frame_when_hidden :
    smartRAF { isVisible := false } (some 0) (1000/30) 40 = .skipFrame ∧
    (1000/30 : ℚ) - (40 - 0) ≤ 0 := by
  constructor
  · norm_num [smartRAF, shouldScheduleFrame]
  · norm_num

/-- The frame-analysis pass never touches the pacing fields. -/
lemma analyzeFrame120_pacing_fields (st : P010State) (dur : ℚ) :
    ((analyzeFrame120 st dur).1).lastFrameTime = st.lastFrameTime ∧
    ((analyzeFrame120 st dur).1).frameInterval = st.frameInterval := by
  refine ⟨?_, ?_⟩ <;>
    simp [analyzeFrame120,
      apply_ite (fun p : P010State × Bool => p.1.lastFrameTime),
      apply_ite (fun p : P010State × Bool => p.1.frameInterval)]

/-- C9 (amended): in the baseline limiter, the deferred (`delay > 0`) branch of
`throttledRAF` changes no limiter state at call time, and the later execution
of the deferred callback (whose only state effect in part_010 is
`analyzeFrame`) never touches `lastFrameTime` or `frameInterval` — so the next
call still measures elapsed time from the last immediately-executed frame. -/
theorem deferred_path_preserves_lastFrameTime
    (st : P010State) (now last : ℚ) (dur : ℚ)
    (hl : st.lastFrameTime = some last)
    (hd : 0 < st.frameInterval - (now - last)) :
    (throttledRAF st now).2 = st ∧
    ((analyzeFrame120 st dur).1).lastFrameTime = st.lastFrameTime ∧
    ((analyzeFrame120 st dur).1).frameInterval = st.frameInterval := by
  refine ⟨?_, (analyzeFrame120_pacing_fields st dur).1,
    (analyzeFrame120_pacing_fields st dur).2⟩
  simp [throttledRAF, hl, not_le.mpr hd]

/-- Witness for C9 at a concrete deferred call (30 fps target, call 10 ms
after the last frame, a 1 ms callback duration). -/
theorem deferred_path_preserves_lastFrameTime_witness :
    (throttledRAF { lastFrameTime := some 0, frameInterval := 1000/30 } 10).2 =
      { lastFrameTime := some 0, frameInterval := 1000/30 } ∧
    ((analyzeFrame120 { lastFrameTime := some 0, frameInterval := 1000/30 } 1).1).lastFrameTime =
      some 0 ∧
    ((analyzeFrame120 { lastFrameTime := some 0, frameInterval := 1000/30 } 1).1).frameInterval =
      1000/30 :=
  deferred_path_preserves_lastFrameTime
    { lastFrameTime := some 0, frameInterval := 1000/30 } 10 0 1 rfl (by norm_num)

/-- C9 counterexample: in part_010 the deferred execution is not free of other
state effects — running the `exec` body (which calls `analyzeFrame`) on a
fresh top-frame state records the measured duration, so `frameDurations`
changes from `[]` to `[1]`. -/
theorem deferred_exec_mutates_analysis_state :
    ((analyzeFrame120 { lastFrameTime := some 0, frameInterval := 1000/30 } 1).1).frameDurations = [1] ∧
    ([1] : List ℚ) ≠ ([] : List ℚ) := by
  constructor
  · simp [analyzeFrame120]
  · simp

/-- Once the page is flagged, the baseline `analyzeFrame` is a no-op. -/
lemma analyzeFrame120_flagged (st : P010State) (d : ℚ)
    (h : st.isPageFlagged = true) : analyzeFrame120 st d = (st, false) := by
  simp [analyzeFrame120, h]

/-- A baseline emission flags the page. -/
lemma analyzeFrame120_emit_flags (st : P010State) (d : ℚ) :
    (analyzeFrame120 st d).2 = true → (analyzeFrame120 st d).1.isPageFlagged = true := by
  unfold analyzeFrame120
  by_cases h0 : (st.isPageFlagged || st.isIframe) = true
  · simp [h0]
  · by_cases hlen : 120 < (st.frameDurations ++ [d]).length <;>
      simp only [h0, hlen, if_true, if_false, Bool.false_eq_true, gt_iff_lt] <;>
      split_ifs <;> simp_all

/-- After the flag is set, no further baseline signal is ever sent. -/
lemma runAnalyze120_flagged (st : P010State) (ds : List ℚ)
    (h : st.isPageFlagged = true) : runAnalyze120 st ds = (st, 0) := by
  induction ds with
  | nil => rfl
  | cons d rest ih =>
    simp [runAnalyze120, analyzeFrame120_flagged st d h, ih]

/-- The baseline limiter sends PAGE_IS_HEAVY at most once per page load. -/
lemma runAnalyze120_le_one (st : P010State) (ds : List ℚ) :
    (runAnalyze120 st ds).2 ≤ 1 := by
  induction ds generalizing st with
  | nil => simp [runAnalyze120]
  | cons d rest ih =>
    by_cases he : (analyzeFrame120 st d).2 = true
    · have hf := analyzeFrame120_emit_flags st d he
      simp [runAnalyze120, he, runAnalyze120_flagged _ rest hf]
    · simp at he
      simp [runAnalyze120, he, ih]

/-- A baseline emission happens only with the 120-sample window exactly full
and its average duration above 8 ms. -/
lemma analyzeFrame120_emit_window (st : P010State) (d : ℚ)
    (hinv : st.frameDurations.length ≤ 120)
    (he : (analyzeFrame120 st d).2 = true) :
    (analyzeFrame120 st d).1.frameDurations.length = 120 ∧
    8 < (analyzeFrame120 st d).1.durationSum / 120 := by
  unfold analyzeFrame120 at he ⊢
  by_cases h0 : (st.isPageFlagged || st.isIframe) = true
  · simp [h0] at he
  · by_cases hlen : 120 < (st.frameDurations ++ [d]).length <;>
      simp only [h0, hlen, gt_iff_lt, if_true, if_false, Bool.false_eq_true] at he ⊢ <;>
      split_ifs at he ⊢ with h1 h2 <;>
      simp_all
    · have hn : st.frameDurations.length = 120 := by omega
      rw [hn] at h2
      norm_num at h2
      exact ⟨hn, h2⟩
    · have hn : st.frameDurations.length = 119 := by omega
      rw [hn] at h2
      norm_num at h2
      exact ⟨hn, h2⟩

/-- The advanced analysis pass keeps the flag and stays silent once
flagged. -/
lemma analyzeFrameAdv_flag_mono (st : AdvAnalysis) (d : ℚ)
    (h : st.isPageFlagged = true) :
    (analyzeFrameAdv st d).1.isPageFlagged = true ∧
    (analyzeFrameAdv st d).2 = false := by
  unfold analyzeFrameAdv
  by_cases h0 : (st.isIframe && !st.gameMode) = true
  · simp [h0, h]
  · by_cases hlen : 240 < (st.frameDurations ++ [d]).length <;>
      simp only [h0, hlen, gt_iff_lt, if_true, if_false, Bool.false_eq_true, h,
        Bool.not_true, Bool.false_and] at * <;>
      split_ifs <;> simp_all

/-- An advanced emission flags the page. -/
lemma analyzeFrameAdv_emit_flags (st : AdvAnalysis) (d : ℚ) :
    (analyzeFrameAdv st d).2 = true → (analyzeFrameAdv st d).1.isPageFlagged = true := by
  unfold analyzeFrameAdv
  by_cases h0 : (st.isIframe && !st.gameMode) = true
  · simp [h0]
  · by_cases hlen : 240 < (st.frameDurations ++ [d]).length <;>
      simp only [h0, hlen, gt_iff_lt, if_true, if_false, Bool.false_eq_true] at * <;>
      split_ifs <;> simp_all

/-- After the flag is set, the advanced detector sends no further signal. -/
lemma runAnalyzeAdv_flagged (ds : List ℚ) (st : AdvAnalysis)
    (h : st.isPageFlagged = true) : (runAnalyzeAdv st ds).2 = 0 := by
  induction ds generalizing st with
  | nil => rfl
  | cons d rest ih =>
    have hm := analyzeFrameAdv_flag_mono st d h
    simp [runAnalyzeAdv, hm.2, ih _ hm.1]

/-- The advanced limiter sends PAGE_IS_HEAVY at most once per page load. -/
lemma runAnalyzeAdv_le_one (ds : List ℚ) (st : AdvAnalysis) :
    (runAnalyzeAdv st ds).2 ≤ 1 := by
  induction ds generalizing st with
  | nil => simp [runAnalyzeAdv]
  | cons d rest ih =>
    by_cases he : (analyzeFrameAdv st d).2 = true
    · have hf := analyzeFrameAdv_emit_flags st d he
      simp [runAnalyzeAdv, he, runAnalyzeAdv_flagged rest _ hf]
    · simp at he
      simp [runAnalyzeAdv, he, ih]

/-- An advanced emission needs only 10 accumulated samples. -/
lemma analyzeFrameAdv_emit_window (st : AdvAnalysis) (d : ℚ)
    (he : (analyzeFrameAdv st d).2 = true) :
    10 ≤ (analyzeFrameAdv st d).1.frameDurations.length := by
  unfold analyzeFrameAdv at he ⊢
  by_cases h0 : (st.isIframe && !st.gameMode) = true
  · simp [h0] at he
  · by_cases hlen : 240 < (st.frameDurations ++ [d]).length <;>
      simp only [h0, hlen, gt_iff_lt, if_true, if_false, Bool.false_eq_true] at he ⊢ <;>
      split_ifs at he ⊢ <;> simp_all

/-- C4 (amended): over any per-page sequence of recorded callback durations,
both limiter variants emit PAGE_IS_HEAVY at most once; the baseline (part_010)
variant emits only when its 120-sample window is exactly full with average
duration above 8 ms, while the advanced (content.ts) variant emits as soon as
at least 10 samples have accumulated with average above 8 ms — it does not
wait for its full 240-sample window. -/
theorem heavy_page_signal_at_most_once
    (st : P010State) (sta : AdvAnalysis) (ds dsa : List ℚ) (d da : ℚ) :
    (runAnalyze120 st ds).2 ≤ 1 ∧
    (runAnalyzeAdv sta dsa).2 ≤ 1 ∧
    (st.frameDurations.length ≤ 120 → (analyzeFrame120 st d).2 = true →
      (analyzeFrame120 st d).1.frameDurations.length = 120 ∧
      8 < (analyzeFrame120 st d).1.durationSum / 120) ∧
    ((analyzeFrameAdv sta da).2 = true →
      10 ≤ (analyzeFrameAdv sta da).1.frameDurations.length) :=
  ⟨runAnalyze120_le_one st ds, runAnalyzeAdv_le_one dsa sta,
   fun h1 h2 => analyzeFrame120_emit_window st d h1 h2,
   fun h => analyzeFrameAdv_emit_window sta da h⟩

/-- Witness for C4: a concrete baseline emission at the full 120-sample window
(119 stored samples of 9 ms plus one more) and a concrete advanced emission at
a 10-sample window of 20 ms callbacks. -/
theorem heavy_page_signal_at_most_once_witness :
    (runAnalyze120 { } [1, 2]).2 ≤ 1 ∧
    (runAnalyzeAdv { } [1, 2]).2 ≤ 1 ∧
    ((analyzeFrame120 { frameDurations := List.replicate 119 9, durationSum := 1071 } 9).1).frameDurations.length = 120 ∧
    8 < ((analyzeFrame120 { frameDurations := List.replicate 119 9, durationSum := 1071 } 9).1).durationSum / 120 ∧
    10 ≤ ((analyzeFrameAdv { frameDurations := List.replicate 9 20, durationSum := 180 } 20).1).frameDurations.length := by
  have h1 := (heavy_page_signal_at_most_once { } { } [1, 2] [1, 2] 0 0).1
  have h2 := (heavy_page_signal_at_most_once { } { } [1, 2] [1, 2] 0 0).2.1
  have h3 := (heavy_page_signal_at_most_once
      { frameDurations := List.replicate 119 9, durationSum := 1071 } { } [] [] 9 0).2.2.1
      (by simp) (by norm_num [analyzeFrame120])
  have h4 := (heavy_page_signal_at_most_once { }
      { frameDurations := List.replicate 9 20, durationSum := 180 } [] [] 0 20).2.2.2
      (by norm_num [analyzeFrameAdv])
  exact ⟨h1, h2, h3.1, h3.2, h4⟩

/-- C4 counterexample: the advanced limiter does not wait for a full
240-sample window — from a fresh top-frame state, ten callbacks of 20 ms each
already produce exactly one PAGE_IS_HEAVY emission with only 10 samples
recorded. -/
theorem advanced_heavy_signal_before_full_window :
    (runAnalyzeAdv { } [20, 20, 20, 20, 20, 20, 20, 20, 20, 20]).2 = 1 ∧
    ((runAnalyzeAdv { } [20, 20, 20, 20, 20, 20, 20, 20, 20, 20]).1).frameDurations.length = 10 ∧
    (10 : ℕ) < 240 := by
  norm_num [runAnalyzeAdv, analyzeFrameAdv]

/-- The interval computation of the advanced limiter's `update`
(src/src/content.ts line 232): `1000 / Math.max(1, targetFps)`. -/
def frameIntervalAdvanced (targetFps : ℚ) : ℚ := 1000 / max 1 targetFps

/-- The interval computation of the baseline limiters' `update`
(src/unnamed/part_010 line 46; same expression in part_011 line 35 and
part_006 line 9): `1000 / (value > 0 ? value : 60)`. -/
def frameIntervalBaseline (value : ℚ) : ℚ :=
  1000 / (if 0 < value then value else 60)

/-- C5 (amended): for a positive configured fps both limiter variants compute
the interval `1000 / fps` (the advanced variant provided fps ≥ 1); for a
non-positive fps the advanced variant floors the divisor at 1 (a 1000 ms
interval), while the baseline variants fall back to the 60 fps interval; in
every variant the divisor is strictly positive, so the computation never
divides by zero and the interval is strictly positive. -/
theorem frame_interval_division_safe (fps : ℚ) :
    (1 ≤ fps → frameIntervalAdvanced fps = 1000 / fps) ∧
    (0 < fps → frameIntervalBaseline fps = 1000 / fps) ∧
    (fps ≤ 0 → frameIntervalAdvanced fps = 1000 ∧
      frameIntervalBaseline fps = 1000 / 60) ∧
    (0 : ℚ) < max 1 fps ∧
    ((0 : ℚ) < if 0 < fps then fps else 60) ∧
    0 < frameIntervalAdvanced fps ∧
    0 < frameIntervalBaseline fps := by
  have hmax : (0 : ℚ) < max 1 fps := lt_of_lt_of_le one_pos (le_max_left 1 fps)
  have hdiv : (0 : ℚ) < if 0 < fps then fps else 60 := by
    split_ifs with h
    · exact h
    · norm_num
  refine ⟨?_, ?_, ?_, hmax, hdiv, ?_, ?_⟩
  · intro h
    rw [frameIntervalAdvanced, max_eq_right h]
  · intro h
    rw [frameIntervalBaseline, if_pos h]
  · intro h
    constructor
    · rw [frameIntervalAdvanced, max_eq_left (by linarith)]
      norm_num
    · rw [frameIntervalBaseline, if_neg (by linarith)]
  · exact div_pos (by norm_num) hmax
  · exact div_pos (by norm_num) hdiv

/-- C5 counterexample: at a configured fps of 0 the advanced limiter's
interval is 1000 ms, not the 60 fps interval the claim's fallback clause
requires, and the baseline limiters' interval is 1000/60 ms, not the
`1000 / max(1, fps)` the claim's formula requires — the claim's two clauses
cannot both hold of either variant. -/
theorem nonpositive_fps_interval_mismatch :
    frameIntervalAdvanced 0 = 1000 ∧
    frameIntervalBaseline 0 = 1000 / 60 ∧
    frameIntervalAdvanced 0 ≠ 1000 / 60 ∧
    frameIntervalBaseline 0 ≠ 1000 / max 1 (0 : ℚ) := by
  norm_num [frameIntervalAdvanced, frameIntervalBaseline]

/-- Witness for C5 at fps = 30 and fps = -5. -/
theorem frame_interval_division_safe_witness :
    frameIntervalAdvanced 30 = 1000 / 30 ∧
    frameIntervalBaseline 30 = 1000 / 30 ∧
    frameIntervalAdvanced (-5) = 1000 ∧
    frameIntervalBaseline (-5) = 1000 / 60 := by
  refine ⟨(frame_interval_division_safe 30).1 (by norm_num),
          (frame_interval_division_safe 30).2.1 (by norm_num),
          ((frame_interval_division_safe (-5)).2.2.1 (by norm_num)).1,
          ((frame_interval_division_safe (-5)).2.2.1 (by norm_num)).2⟩

/-- The jank readout of the popup (src/src/popup/popup.ts line 441):
`Math.min(100, (frameTime / 16.67 - 1) * 100)`. -/
def jankPercentage (frameTime : ℚ) : ℚ :=
  min 100 ((frameTime / (1667/100) - 1) * 100)

/-- Modelled from the spec: the formula the specification states for the jank
readout, `max(0, (frameTime / 16.67 - 1) * 100)`, kept for comparison with
the source's `jankPercentage`. -/
def jankPercentageSpec (frameTime : ℚ) : ℚ :=
  max 0 ((frameTime / (1667/100) - 1) * 100)

/-- C6 (amended): the popup's jank percentage is capped above at 100 and is
strictly negative for any frame time below 16.67 ms (it is not clamped at
zero); it is zero exactly at the 16.67 ms baseline. -/
theorem jank_percentage_capped_above_not_below (f : ℚ) :
    jankPercentage f ≤ 100 ∧
    (f < 1667/100 → jankPercentage f < 0) ∧
    (f = 1667/100 → jankPercentage f = 0) := by
  refine ⟨min_le_left _ _, ?_, ?_⟩
  · intro h
    have hneg : (f / (1667/100) - 1) * 100 < 0 := by
      have hlt : f / (1667/100) < 1 := by
        rw [div_lt_one (by norm_num)]
        exact h
      nlinarith
    exact lt_of_le_of_lt (min_le_right _ _) hneg
  · intro h
    subst h
    norm_num [jankPercentage]

/-- C6 counterexample: at a frame time of 10 ms the code displays
-66700/1667 ≈ -40 %, whereas the claimed `max(0, ...)` formula yields 0 —
the displayed value is negative, contradicting the claim. -/
theorem jank_percentage_negative_counterexample :
    jankPercentage 10 = -(66700/1667) ∧
    jankPercentage 10 < 0 ∧
    jankPercentageSpec 10 = 0 ∧
    jankPercentage 10 ≠ jankPercentageSpec 10 := by
  norm_num [jankPercentage, jankPercentageSpec]

/-- Witness for C6 at a 10 ms frame time. -/
theorem jank_witness :
    jankPercentage 10 < 0 :=
  (jank_percentage_capped_above_not_below 10).2.1 (by norm_num)

/-- `calculateConfidence` of the AI engine (src/unnamed/part_011 lines
734–750): 0.3 base, plus capped contributions from the stored sample counts,
plus tab-analytics bonuses, capped at 1. `tabClassificationConfidence` is
`some c` when tab analytics are available with classification confidence
`c`. -/
def calculateConfidence (perfHistoryLen fpsSettingsLen : ℕ)
    (tabClassificationConfidence : Option ℚ) : ℚ :=
  let c1 := (3/10 : ℚ) + min (4/10) (perfHistoryLen * (2/100))
  let c2 := c1 + min (2/10) (fpsSettingsLen * (5/100))
  let c3 :=
    match tabClassificationConfidence with
    | none => c2
    | some conf => if (8/10 : ℚ) < conf then c2 + 1/10 + 1/10 else c2 + 1/10
  min 1 c3

/-- The performance fields the heuristic recommendation reads. -/
structure PerfData where
  cpuUsage : ℚ
  jankFrames : ℚ

/-- The thermal state of `SystemInfo`. -/
inductive ThermalState
  | normal
  | fair
  | serious
  | critical
deriving DecidableEq, Repr

/-- The system-info fields the heuristic recommendation reads. -/
structure SysInfo where
  batteryLevel : Option ℚ
  thermalState : ThermalState

/-- `isGamingDomain` lookup list (src/unnamed/part_011 lines 770–776). -/
def gamingDomains : List String :=
  ["steam", "itch.io", "kongregate", "miniclip", "newgrounds", "armor games",
   "krunker.io", "agar.io", "slither.io", "diep.io"]

/-- `isVideoDomain` lookup list (src/unnamed/part_011 lines 778–781). -/
def videoDomains : List String :=
  ["youtube", "netflix", "twitch", "vimeo", "dailymotion", "hulu"]

/-- `isSocialDomain` lookup list (src/unnamed/part_011 lines 783–786). -/
def socialDomains : List String :=
  ["facebook", "twitter", "instagram", "linkedin", "reddit", "tiktok"]

/-- Gaming-domain test by substring containment. -/
def isGamingDomain (domain : String) : Bool :=
  gamingDomains.any (fun g => strIncludes domain g)

/-- Video-domain test by substring containment. -/
def isVideoDomain (domain : String) : Bool :=
  videoDomains.any (fun v => strIncludes domain v)

/-- Social-domain test by substring containment. -/
def isSocialDomain (domain : String) : Bool :=
  socialDomains.any (fun v => strIncludes domain v)

/-- The `{fps, confidence}` part of the heuristic recommendation's result
(its reasoning string carries no logic). -/
structure HeuristicResult where
  fps : ℤ
  confidence : ℚ

/-- Domain-based stage: (baseFps, confidence) after the three domain lists. -/
def heuristicDomainStage (domain : String) : ℚ × ℚ :=
  if isGamingDomain domain then (144, 1/2 + 2/10)
  else if isVideoDomain domain then (60, 1/2 + 1/10)
  else if isSocialDomain domain then (30, 1/2 + 1/10)
  else (60, 1/2)

/-- Performance-based stage (adjusts fps only). -/
def heuristicPerfStage (b : ℚ) (perf : Option PerfData) : ℚ :=
  match perf with
  | none => b
  | some p =>
    let b1 := if (80 : ℚ) < p.cpuUsage then max 30 (b * (7/10)) else b
    if (10 : ℚ) < p.jankFrames then max 30 (b1 * (8/10)) else b1

/-- System-based stage (battery cap with a confidence bump, then thermal
multiplier on fps). -/
def heuristicSysStage (b c : ℚ) (sys : Option SysInfo) : ℚ × ℚ :=
  match sys with
  | none => (b, c)
  | some si =>
    let bb : ℚ × ℚ :=
      match si.batteryLevel with
      | some lvl => if lvl < 20 then (min b 30, c + 1/10) else (b, c)
      | none => (b, c)
    let b2 :=
      if si.thermalState ≠ ThermalState.normal then
        let m : ℚ :=
          match si.thermalState with
          | .fair => 9/10
          | .serious => 7/10
          | .critical => 1/2
          | .normal => 1
        max 15 (bb.1 * m)
      else bb.1
    (b2, bb.2)

/-- Tab-classification stage (game classification raises fps and
confidence). -/
def heuristicGameStage (b c : ℚ) (tabIsGame : Bool) : ℚ × ℚ :=
  if tabIsGame then (max b 120, c + 2/10) else (b, c)

/-- `getHeuristicRecommendation` of the AI engine (src/unnamed/part_011
lines 356–436), assembled from its four sequential adjustment blocks; the
`catch` branch (URL parse failure) returns the fixed
`{fps := 60, confidence := 0.3}` fallback. -/
def getHeuristicRecommendation (url : Url) (tabIsGame : Bool)
    (perf : Option PerfData) (sys : Option SysInfo) : HeuristicResult :=
  match url.hostname with
  | none => { fps := 60, confidence := 3/10 }
  | some domain =>
    let dc := heuristicDomainStage domain
    let base2 := heuristicPerfStage dc.1 perf
    let sc := heuristicSysStage base2 dc.2 sys
    let fc := heuristicGameStage sc.1 sc.2 tabIsGame
    { fps := round fc.1, confidence := min 1 fc.2 }

/-- The domain stage never lowers confidence below the 0.5 base. -/
lemma heuristicDomainStage_conf (domain : String) :
    (1 : ℚ)/2 ≤ (heuristicDomainStage domain).2 := by
  unfold heuristicDomainStage
  split_ifs <;> norm_num

/-- The system stage never lowers confidence. -/
lemma heuristicSysStage_conf (b c : ℚ) (sys : Option SysInfo) :
    c ≤ (heuristicSysStage b c sys).2 := by
  unfold heuristicSysStage
  rcases sys with _ | si
  · simp
  · rcases si with ⟨_ | lvl, ts⟩ <;> dsimp only <;>
      first
        | (split_ifs <;> norm_num)
        | norm_num

/-- The classification stage never lowers confidence. -/
lemma heuristicGameStage_conf (b c : ℚ) (g : Bool) :
    c ≤ (heuristicGameStage b c g).2 := by
  unfold heuristicGameStage
  split_ifs <;> norm_num

/-- C7: both of the AI engine's confidence formulas — `calculateConfidence`
over any stored sample counts and optional tab analytics, and the heuristic
recommendation over any URL, classification, performance and system inputs —
produce a value in [0, 1]. -/
theorem ai_confidence_in_unit_interval
    (perfLen fpsLen : ℕ) (tab : Option ℚ) (url : Url) (tabIsGame : Bool)
    (perf : Option PerfData) (sys : Option SysInfo) :
    0 ≤ calculateConfidence perfLen fpsLen tab ∧
    calculateConfidence perfLen fpsLen tab ≤ 1 ∧
    0 ≤ (getHeuristicRecommendation url tabIsGame perf sys).confidence ∧
    (getHeuristicRecommendation url tabIsGame perf sys).confidence ≤ 1 := by
  have h1 : (0 : ℚ) ≤ min ((4 : ℚ)/10) ((perfLen : ℚ) * (2/100)) :=
    le_min (by norm_num) (by positivity)
  have h2 : (0 : ℚ) ≤ min ((2 : ℚ)/10) ((fpsLen : ℚ) * (5/100)) :=
    le_min (by norm_num) (by positivity)
  refine ⟨?_, ?_, ?_, ?_⟩
  · unfold calculateConfidence
    rcases tab with _ | conf
    · dsimp only
      apply le_min (by norm_num)
      linarith
    · dsimp only
      split_ifs <;> apply le_min (by norm_num) <;> linarith
  · unfold calculateConfidence
    rcases tab with _ | conf <;> exact min_le_left _ _
  · unfold getHeuristicRecommendation
    rcases url with ⟨_ | domain⟩
    · norm_num
    · dsimp only
      have ha := heuristicDomainStage_conf domain
      have hb := heuristicSysStage_conf (heuristicPerfStage (heuristicDomainStage domain).1 perf)
        (heuristicDomainStage domain).2 sys
      have hc := heuristicGameStage_conf
        (heuristicSysStage (heuristicPerfStage (heuristicDomainStage domain).1 perf)
          (heuristicDomainStage domain).2 sys).1
        (heuristicSysStage (heuristicPerfStage (heuristicDomainStage domain).1 perf)
          (heuristicDomainStage domain).2 sys).2 tabIsGame
      apply le_min (by norm_num)
      linarith
  · unfold getHeuristicRecommendation
    rcases url with ⟨_ | domain⟩
    · norm_num
    · exact min_le_left _ _

/-- One step of the release script's main flow (src/support/release.js
lines 16–45), in program order: the two read/parse calls, the two
version-file writes, and the five git commands. -/
inductive GitStep
  | readPkg
  | writePkg
  | readManifest
  | writeManifest
  | gitAdd
  | gitCommit
  | gitTag
  | gitPush
  | gitPushTags
deriving DecidableEq, Repr

/-- Working tree and git state the script touches: the version recorded in
each of the two version files (working copy and committed copy), and the
lists of commits and tags created so far. Versions are abstract numbers. -/
structure RepoState where
  pkgWork : ℕ
  manWork : ℕ
  pkgHead : ℕ
  manHead : ℕ
  commits : List ℕ
  tags : List ℕ
deriving DecidableEq, Repr

/-- The command-line argument `process.argv[2]`. -/
inductive ReleaseArg
  | patch
  | minor
  | major
  | other (s : String)

/-- The guard `['patch', 'minor', 'major'].includes(releaseType)`
(src/support/release.js line 8). -/
def validArg : ReleaseArg → Bool
  | .other _ => false
  | _ => true

/-- The effect of one successfully executed step: writes update a working
version file; `git commit` publishes the working copies as the committed
content and records a commit; `git tag` records a tag; reads, `git add` and
the pushes change none of the modelled state. -/
def applyStep (newV : ℕ) (st : RepoState) : GitStep → RepoState
  | .readPkg => st
  | .writePkg => { st with pkgWork := newV }
  | .readManifest => st
  | .writeManifest => { st with manWork := newV }
  | .gitAdd => st
  | .gitCommit =>
    { st with pkgHead := st.pkgWork, manHead := st.manWork,
              commits := st.commits ++ [newV] }
  | .gitTag => { st with tags := st.tags ++ [newV] }
  | .gitPush => st
  | .gitPushTags => st

/-- The `catch` handler's `git checkout -- package.json src/manifest.json`
(src/support/release.js line 49): it restores the two working files to their
last-committed content and touches nothing else. -/
def rollback (st : RepoState) : RepoState :=
  { st with pkgWork := st.pkgHead, manWork := st.manHead }

/-- Process exit code and final state of one script run. -/
structure RunResult where
  exitCode : ℕ
  repo : RepoState
deriving DecidableEq, Repr

/-- Runs the steps in order; the first failing step aborts into the `catch`
handler, which rolls the two version files back and exits 1. -/
def runSteps (newV : ℕ) (fails : GitStep → Bool) :
    RepoState → List GitStep → RunResult
  | st, [] => ⟨0, st⟩
  | st, s :: rest =>
    if fails s then ⟨1, rollback st⟩
    else runSteps newV fails (applyStep newV st s) rest

/-- The script's steps in source order. -/
def releaseSteps : List GitStep :=
  [.readPkg, .writePkg, .readManifest, .writeManifest,
   .gitAdd, .gitCommit, .gitTag, .gitPush, .gitPushTags]

/-- The whole script: an invalid argument exits 1 before touching anything;
otherwise the step sequence runs with `newVersion = inc(arg, oldVersion)`
where `oldVersion` is read from the working package.json. -/
def runRelease (arg : ReleaseArg) (inc : ReleaseArg → ℕ → ℕ)
    (fails : GitStep → Bool) (st : RepoState) : RunResult :=
  if !(validArg arg) then ⟨1, st⟩
  else runSteps (inc arg st.pkgWork) fails st releaseSteps

/-- No step ever removes a commit or a tag. -/
lemma applyStep_monotone (newV : ℕ) (st : RepoState) (s : GitStep) :
    st.commits <+: (applyStep newV st s).commits ∧
    st.tags <+: (applyStep newV st s).tags := by
  cases s <;> simp [applyStep]

/-- Any partial run exits 0 or 1; an exit of 1 leaves the two version files
equal to their committed content, and commits/tags only ever grow. -/
lemma runSteps_spec (newV : ℕ) (fails : GitStep → Bool) :
    ∀ (l : List GitStep) (st : RepoState),
      ((runSteps newV fails st l).exitCode = 0 ∨
       (runSteps newV fails st l).exitCode = 1) ∧
      ((runSteps newV fails st l).exitCode = 1 →
        (runSteps newV fails st l).repo.pkgWork =
          (runSteps newV fails st l).repo.pkgHead ∧
        (runSteps newV fails st l).repo.manWork =
          (runSteps newV fails st l).repo.manHead) ∧
      st.commits <+: (runSteps newV fails st l).repo.commits ∧
      st.tags <+: (runSteps newV fails st l).repo.tags := by
  intro l
  induction l with
  | nil =>
    intro st
    simp [runSteps]
  | cons s rest ih =>
    intro st
    by_cases hf : fails s = true
    · simp [runSteps, hf, rollback]
    · simp only [runSteps, hf, Bool.false_eq_true, if_false]
      have h := ih (applyStep newV st s)
      have hm := applyStep_monotone newV st s
      exact ⟨h.1, h.2.1, hm.1.trans h.2.2.1, hm.2.trans h.2.2.2⟩

/-- C8: an invalid release kind exits 1 with no file modified; after a valid
invocation, any step failure exits 1 with both version files restored to
their last-committed content by the working-tree checkout, and no commit or
tag created before the failure is ever removed (the rollback never undoes a
commit or tag). -/
theorem release_script_rollback
    (arg : ReleaseArg) (inc : ReleaseArg → ℕ → ℕ)
    (fails : GitStep → Bool) (st : RepoState) :
    (validArg arg = false → runRelease arg inc fails st = ⟨1, st⟩) ∧
    (validArg arg = true →
      ((runRelease arg inc fails st).exitCode = 0 ∨
        (runRelease arg inc fails st).exitCode = 1) ∧
      ((runRelease arg inc fails st).exitCode = 1 →
        (runRelease arg inc fails st).repo.pkgWork =
          (runRelease arg inc fails st).repo.pkgHead ∧
        (runRelease arg inc fails st).repo.manWork =
          (runRelease arg inc fails st).repo.manHead) ∧
      st.commits <+: (runRelease arg inc fails st).repo.commits ∧
      st.tags <+: (runRelease arg inc fails st).repo.tags) := by
  constructor
  · intro hv
    simp [runRelease, hv]
  · intro hv
    have h := runSteps_spec (inc arg st.pkgWork) fails releaseSteps st
    simp only [runRelease, hv, Bool.not_true, Bool.false_eq_true, if_false]
    exact ⟨h.1, h.2.1, h.2.2.1, h.2.2.2⟩

/-- Witness for C8: an invalid argument run, and a valid `patch` run whose
`git push` fails after the commit and tag succeeded — the commit and the tag
survive, the working files match the (new) committed version, and the exit
code is 1. -/
theorem release_script_rollback_witness :
    runRelease (.other "beta") (fun _ v => v + 1) (fun _ => false)
      ⟨3, 3, 3, 3, [], []⟩ = ⟨1, ⟨3, 3, 3, 3, [], []⟩⟩ ∧
    (runRelease .patch (fun _ v => v + 1) (fun s => s == .gitPush)
      ⟨3, 3, 3, 3, [], []⟩).exitCode = 1 ∧
    ((runRelease .patch (fun _ v => v + 1) (fun s => s == .gitPush)
        ⟨3, 3, 3, 3, [], []⟩).repo.pkgWork =
      (runRelease .patch (fun _ v => v + 1) (fun s => s == .gitPush)
        ⟨3, 3, 3, 3, [], []⟩).repo.pkgHead) ∧
    (runRelease .patch (fun _ v => v + 1) (fun s => s == .gitPush)
      ⟨3, 3, 3, 3, [], []⟩).repo = ⟨4, 4, 4, 4, [4], [4]⟩ := by
  refine ⟨(release_script_rollback (.other "beta") (fun _ v => v + 1)
      (fun _ => false) ⟨3, 3, 3, 3, [], []⟩).1 rfl, by decide,
    ((release_script_rollback .patch (fun _ v => v + 1)
      (fun s => s == .gitPush) ⟨3, 3, 3, 3, [], []⟩).2 rfl).2.1 (by decide) |>.1,
    by decide⟩

/-- The PAGE_IS_HEAVY message handler of src/unnamed/part_008 lines 63–74:
the sender's hostname is appended to the stored `heavyHosts` list only when
not already present (`heavyHosts.includes(host)` guard, `push` append). -/
def handlePageIsHeavy (heavyHosts : List String) (host : String) : List String :=
  if host ∈ heavyHosts then heavyHosts else heavyHosts ++ [host]

/-- C10: the PAGE_IS_HEAVY handler preserves freedom from duplicates in
`heavyHosts`: it appends the hostname only when absent, keeps every existing
element unchanged (the old list is a prefix of the new one), leaves the list
untouched when the host is already present, and afterwards the host is in
the list. -/
theorem heavy_hosts_no_duplicates (hs : List String) (h : String)
    (hnd : hs.Nodup) :
    (handlePageIsHeavy hs h).Nodup ∧
    hs <+: handlePageIsHeavy hs h ∧
    (h ∈ hs → handlePageIsHeavy hs h = hs) ∧
    h ∈ handlePageIsHeavy hs h := by
  unfold handlePageIsHeavy
  by_cases hm : h ∈ hs
  · simp [hm, hnd]
  · refine ⟨?_, by simp [hm], by simp [hm], by simp [hm]⟩
    simp only [hm, if_false]
    rw [List.nodup_append]
    exact ⟨hnd, List.nodup_singleton h, by simpa using hm⟩

/-- Witness for C10 on a concrete one-element list. -/
theorem heavy_hosts_no_duplicates_witness :
    (handlePageIsHeavy ["youtube.com"] "example.com").Nodup ∧
    ["youtube.com"] <+: handlePageIsHeavy ["youtube.com"] "example.com" ∧
    ("example.com" ∈ (["youtube.com"] : List String) →
      handlePageIsHeavy ["youtube.com"] "example.com" = ["youtube.com"]) ∧
    "example.com" ∈ handlePageIsHeavy ["youtube.com"] "example.com" :=
  heavy_hosts_no_duplicates ["youtube.com"] "example.com" (by simp)
